import Mathlib

/-!
Verification of the resilient multi-strategy action executor of the
blinkit ordering system, as implemented by the HTTP client
(`src/api/client.py`), the HTTP cart manager (`src/api/cart.py`), the
search/checkout response parsers (`src/api/search.py`,
`src/api/checkout.py`), and the browser-mode cart service
(`src/order/services/cart.py`).

The embedding is shallow: JSON-ish Python values are modelled by
`JValue` (numbers as rationals), Python exceptions by `Except`/`Option`,
the network by explicit lists or functions supplying each attempt's raw
outcome, and the browser page by a record of the queried visibility
facts. Every definition is translated from the corresponding source
function; deviations forced by the modelling (e.g. Python `float()`
restricted to plain decimal literals, no exponent forms) are noted at
the definition.
-/

namespace Blinkit

/-- A Python/JSON value as handled by the response classifiers:
`None`, booleans, numbers (modelled as rationals — the source only ever
compares and adds them), strings, lists and string-keyed dicts. -/
inductive JValue : Type where
  | jnull : JValue
  | jbool (b : Bool) : JValue
  | jnum (q : ℚ) : JValue
  | jstr (s : String) : JValue
  | jarr (elems : List JValue) : JValue
  | jobj (fields : List (String × JValue)) : JValue
  deriving Repr

mutual

/-- Structural equality of `JValue`s (models Python `==` as used by the
classifiers, which only ever compare scalars of matching type). -/
def jbeq : JValue → JValue → Bool
  | .jnull, .jnull => true
  | .jbool a, .jbool b => a == b
  | .jnum a, .jnum b => a == b
  | .jstr a, .jstr b => a == b
  | .jarr xs, .jarr ys => jbeqList xs ys
  | .jobj fs, .jobj gs => jbeqFields fs gs
  | _, _ => false

/-- Elementwise `jbeq` on lists. -/
def jbeqList : List JValue → List JValue → Bool
  | [], [] => true
  | x :: xs, y :: ys => jbeq x y && jbeqList xs ys
  | _, _ => false

/-- Fieldwise `jbeq` on dict entries. -/
def jbeqFields : List (String × JValue) → List (String × JValue) → Bool
  | [], [] => true
  | (k, v) :: fs, (l, w) :: gs => k == l && jbeq v w && jbeqFields fs gs
  | _, _ => false

end

instance : BEq JValue := ⟨jbeq⟩

namespace JValue

/-- Python truthiness (`bool(v)`): `None`, `False`, `0`, `""`, `[]` and
the empty dict are falsy, everything else truthy. -/
def pyTruthy : JValue → Bool
  | jnull => false
  | jbool b => b
  | jnum q => q != 0
  | jstr s => s != ""
  | jarr xs => !xs.isEmpty
  | jobj fs => !fs.isEmpty

/-- Key lookup in a dict value; `none` when the value is not a dict or
the key is absent. -/
def jlookup : JValue → String → Option JValue
  | jobj fs, k => (fs.find? (fun p => p.1 == k)).map Prod.snd
  | _, _ => none

/-- Python `d.get(k)`: the stored value, or `None` when absent. -/
def pyGet (v : JValue) (k : String) : JValue :=
  match v.jlookup k with
  | some w => w
  | none => jnull

/-- Python `d.get(k, default)`. -/
def pyGetD (v : JValue) (k : String) (d : JValue) : JValue :=
  match v.jlookup k with
  | some w => w
  | none => d

/-- Python `a or b`: `a` when truthy, else `b`. -/
def pyOr (a b : JValue) : JValue :=
  if a.pyTruthy then a else b

end JValue

open JValue

/-- Does the needle occur at the head of the haystack. -/
def leadMatch : List Char → List Char → Bool
  | [], _ => true
  | _ :: _, [] => false
  | a :: as, b :: bs => a == b && leadMatch as bs

/-- Does the needle occur anywhere in the haystack. -/
def runSearch (needle : List Char) : List Char → Bool
  | [] => needle.isEmpty
  | c :: rest => leadMatch needle (c :: rest) || runSearch needle rest

/-- Substring test, modelling Python `pat in s` / `s.find(pat) != -1`
for the non-empty literal patterns the classifiers use. -/
def strContains (s pat : String) : Bool :=
  runSearch pat.toList s.toList

/-- First whitespace-separated token of a string, modelling Python
`s.split()[0]` (only ever called on non-empty names in the source). -/
def firstWord (s : String) : String :=
  ((s.toList.dropWhile Char.isWhitespace).takeWhile (fun c => !c.isWhitespace)).asString

/-- Lower-casing, modelling Python `s.lower()` for the ASCII vocabulary
the classifiers compare. -/
def strToLower (s : String) : String :=
  (s.toList.map Char.toLower).asString

/-- Leading and trailing whitespace removal (Python `s.strip()` as
`float`/`int` apply it to their argument). -/
def stripWs (cs : List Char) : List Char :=
  ((cs.dropWhile Char.isWhitespace).reverse.dropWhile Char.isWhitespace).reverse

/-- Python `s.replace(",", "")` as `_extract_price` applies it before
the numeric-run search. -/
def removeCommas (s : String) : String :=
  (s.toList.filter (fun c => c != ',')).asString

/-- Digit run to a natural number. -/
def digitsToNat (ds : List Char) : ℕ :=
  ds.foldl (fun n c => 10 * n + (c.toNat - 48)) 0

/-- Value of a decimal literal split into integer and fraction digits. -/
def decToRat (ip fp : List Char) : ℚ :=
  (digitsToNat ip : ℚ) + (digitsToNat fp : ℚ) / (10 : ℚ) ^ fp.length

/-- Unsigned decimal literal: `digits`, `digits.`, `digits.digits` or
`.digits`, nothing else. -/
def parseDecimal (cs : List Char) : Option ℚ :=
  let ip := cs.takeWhile Char.isDigit
  match cs.drop ip.length with
  | [] => if ip.isEmpty then none else some (decToRat ip [])
  | '.' :: r2 =>
      let fp := r2.takeWhile Char.isDigit
      if (r2.drop fp.length).isEmpty && !(ip.isEmpty && fp.isEmpty) then
        some (decToRat ip fp)
      else none
  | _ => none

/-- Python `float(s)` on a string, restricted to the plain decimal
forms the source feeds it (optional surrounding whitespace and sign; no
exponent, `inf` or `nan` forms, which never arise here). `none` models
the `ValueError` raised on anything else, e.g. `"₹46"`. -/
def pyFloatOfString (s : String) : Option ℚ :=
  match stripWs s.toList with
  | '+' :: cs => parseDecimal cs
  | '-' :: cs => (parseDecimal cs).map Neg.neg
  | cs => parseDecimal cs

/-- Python `float(v)`: numbers pass through, booleans become 0/1,
strings are parsed; `None`, lists and dicts raise `TypeError`,
modelled as `none`. -/
def pyFloat : JValue → Option ℚ
  | .jnum q => some q
  | .jbool b => some (if b then 1 else 0)
  | .jstr s => pyFloatOfString s
  | _ => none

/-- Python `int(s)` on a string: optional whitespace and sign around a
pure digit run (so `int("46.0")` raises, modelled as `none`). -/
def pyIntOfString (s : String) : Option ℤ :=
  let core : List Char → Option ℤ := fun cs =>
    if !cs.isEmpty && cs.all Char.isDigit then some (digitsToNat cs : ℤ) else none
  match stripWs s.toList with
  | '+' :: cs => core cs
  | '-' :: cs => (core cs).map Neg.neg
  | cs => core cs

/-- Python `int(v)`: truncation toward zero for numbers, 0/1 for
booleans, strict digit parsing for strings; `TypeError` (`none`)
otherwise. -/
def pyInt : JValue → Option ℤ
  | .jnum q => some (q.num.tdiv (q.den : ℤ))
  | .jbool b => some (if b then 1 else 0)
  | .jstr s => pyIntOfString s
  | _ => none

/-- Python `str(v)` for the scalar values the parsers stringify. The
claims only ever evaluate this on `None`, strings and integers; lists
and dicts (which never reach `str()` in the modelled paths) are given a
nominal rendering. -/
def pyStr : JValue → String
  | .jnull => "None"
  | .jstr s => s
  | .jbool b => if b then "True" else "False"
  | .jnum q => if q.den = 1 then toString q.num else toString q
  | .jarr _ => "[...]"
  | .jobj _ => "(dict)"

/-- Python `k in v`: key test on dicts, membership on lists, substring
on strings; `TypeError` on scalars. -/
def pyInE (k : String) : JValue → Except String Bool
  | .jobj fs => .ok (fs.any (fun p => p.1 == k))
  | .jarr xs => .ok (xs.any (fun x => jbeq x (.jstr k)))
  | .jstr s => .ok (strContains s k)
  | _ => .error "TypeError: argument not iterable"

/-- Python `v[k]` for a string key. -/
def pyIndexE (v : JValue) (k : String) : Except String JValue :=
  match v.jlookup k with
  | some w => .ok w
  | none => .error "KeyError"

/-- Python iteration `for x in v`: lists yield elements, strings yield
one-character strings, dicts yield their keys; scalars raise. -/
def pyIterE : JValue → Except String (List JValue)
  | .jarr xs => .ok xs
  | .jstr s => .ok (s.toList.map (fun c => .jstr (String.singleton c)))
  | .jobj fs => .ok (fs.map (fun p => .jstr p.1))
  | _ => .error "TypeError: not iterable"

/-- Maximal run matched by the regular expression digits-dot?-digits*
starting at the head of the character list (head is a digit). -/
def numRun (cs : List Char) : List Char :=
  let ds := cs.takeWhile Char.isDigit
  match cs.drop ds.length with
  | '.' :: r2 => ds ++ '.' :: r2.takeWhile Char.isDigit
  | _ => ds

/-- First match of the numeric-run pattern in a character list. -/
def firstNumericRunAux : List Char → Option (List Char)
  | [] => none
  | c :: rest =>
      if c.isDigit then some (numRun (c :: rest)) else firstNumericRunAux rest

/-- `re.findall` of the first numeric run in a string, as
`BlinkitSearch._extract_price` applies it to string-typed prices. -/
def firstNumericRun (s : String) : Option String :=
  (firstNumericRunAux s.toList).map List.asString

/-- Exception taxonomy relevant to the executor: the two
immediately-propagated faults raised by `BlinkitAPIClient._make_request`
(HTTP 401 and 429) and every other caught exception, carrying its
message. -/
inductive Fault : Type where
  | authFault : Fault
  | rateLimitFault : Fault
  | otherFault (msg : String) : Fault
  deriving DecidableEq, Repr

/-- `BlinkitCart._is_valid_cart_response`: falsy responses are invalid;
otherwise any of the four membership probes (`items`, `cart`,
`products`, `total`/`total_amount`) accepts. `in` on a scalar raises. -/
def is_valid_cart_response (r : JValue) : Except String Bool :=
  if !r.pyTruthy then .ok false
  else do
    let i1 ← pyInE "items" r
    let i2 ← pyInE "cart" r
    let i3 ← pyInE "products" r
    let i4 ← pyInE "total" r
    let i5 ← pyInE "total_amount" r
    pure (i1 || i2 || i3 || (i4 || i5))

/-- `BlinkitCart._is_successful_cart_operation`: falsy responses fail;
otherwise the disjunction of the five success indicators, all evaluated
eagerly (Python builds the indicator list before `any`). A non-dict
response or a non-string `message` raises `AttributeError`. -/
def is_successful_cart_operation (r : JValue) : Except String Bool :=
  if !r.pyTruthy then .ok false
  else
    match r with
    | .jobj _ =>
        let i1 := jbeq (r.pyGet "success") (.jbool true)
        let i2 := jbeq (r.pyGet "status") (.jstr "success")
        let i3 := jbeq (r.pyGet "error") .jnull
        let i4 := (r.jlookup "cart").isSome
        match r.pyGetD "message" (.jstr "") with
        | .jstr m => .ok (i1 || i2 || i3 || i4 || strContains (strToLower m) "success")
        | _ => .error "AttributeError: lower"
    | _ => .error "AttributeError: get"

/-- `BlinkitCart._extract_amount`: walk the field names in order, skip
absent or `None` values, return the first `float()`-coercible value,
else `0.0`; parse failures are caught and skipped. -/
def extract_amount (data : JValue) : List String → ℚ
  | [] => 0
  | f :: rest =>
      match data.jlookup f with
      | none => extract_amount data rest
      | some .jnull => extract_amount data rest
      | some v =>
          match pyFloat v with
          | some q => q
          | none => extract_amount data rest

/-- The price field names probed by `BlinkitSearch._extract_price`. -/
def price_fields : List String :=
  ["price", "selling_price", "discounted_price", "final_price",
   "amount", "cost", "value", "sale_price"]

/-- Top-level field walk of `BlinkitSearch._extract_price`: strings are
searched for their first numeric run (commas removed), other values go
through `float()`; failures skip to the next field. -/
def extract_price_loop (item : JValue) : List String → Option ℚ
  | [] => none
  | f :: rest =>
      match item.jlookup f with
      | none => extract_price_loop item rest
      | some .jnull => extract_price_loop item rest
      | some (.jstr s) =>
          match firstNumericRun (removeCommas s) with
          | some run =>
              match pyFloatOfString run with
              | some q => some q
              | none => extract_price_loop item rest
          | none => extract_price_loop item rest
      | some v =>
          match pyFloat v with
          | some q => some q
          | none => extract_price_loop item rest

/-- Nested `price_info` walk of `BlinkitSearch._extract_price`: plain
`float()` on each present field, no numeric-run search. -/
def extract_price_info_loop (pi : JValue) : List String → Option ℚ
  | [] => none
  | f :: rest =>
      match pi.jlookup f with
      | none => extract_price_info_loop pi rest
      | some v =>
          match pyFloat v with
          | some q => some q
          | none => extract_price_info_loop pi rest

/-- `BlinkitSearch._extract_price`: the ordered field walk, then the
nested `price_info` dict, then `0.0`. Total by construction — every
parse failure is caught in the source. -/
def extract_price (item : JValue) : ℚ :=
  match extract_price_loop item price_fields with
  | some q => q
  | none =>
      match item.jlookup "price_info" with
      | some (.jobj fs) =>
          match extract_price_info_loop (.jobj fs) price_fields with
          | some q => q
          | none => 0
      | _ => 0

/-- `models.CartItem`: identifier and name as produced by the parser
(`str()` for the id, raw value for the name), quantity from `int()`,
monetary fields from `float()`, and the raw `max_quantity` value. -/
structure CartItem : Type where
  product_id : String
  product_name : JValue
  quantity : ℤ
  price : ℚ
  total_price : ℚ
  max_quantity : JValue
  deriving Repr

/-- `models.Cart` with its dataclass defaults (`delivery_fee = 0.0`,
`taxes = 0.0`, `total_amount = 0.0`, `min_order_value = None`). -/
structure Cart : Type where
  items : List CartItem
  total_items : ℕ
  subtotal : ℚ
  delivery_fee : ℚ
  taxes : ℚ
  total_amount : ℚ
  min_order_value : Option JValue
  deriving Repr

/-- The empty cart built by `BlinkitCart.get_cart` when every endpoint
fails, with the remaining fields at their dataclass defaults. -/
def empty_cart : Cart :=
  { items := [], total_items := 0, subtotal := 0, delivery_fee := 0,
    taxes := 0, total_amount := 0, min_order_value := none }

/-- `BlinkitCart._parse_cart_item`: `None` for a non-dict item or when
`int()`/`float()` raise (the per-item `except` catches them); the line
total is recomputed as price × quantity when absent and the price is
positive. The id falls out of `str(... or ... or ...)`, so it is the
string `"None"` — never empty — when all three id fields are missing. -/
def parse_cart_item (v : JValue) : Option CartItem :=
  match v with
  | .jobj _ =>
      let pid := pyStr (pyOr (v.pyGet "product_id") (pyOr (v.pyGet "id") (v.pyGet "sku")))
      if pid == "" then none
      else
        let pname := pyOr (v.pyGet "name")
          (pyOr (v.pyGet "product_name") (pyOr (v.pyGet "title") (.jstr "Unknown Product")))
        match pyInt (v.pyGetD "quantity" (.jnum 1)) with
        | none => none
        | some qty =>
            match pyFloat (pyOr (v.pyGetD "price" (.jnum 0)) (v.pyGetD "unit_price" (.jnum 0))) with
            | none => none
            | some price =>
                match pyFloat (pyOr (v.pyGetD "total_price" (.jnum 0))
                    (v.pyGetD "line_total" (.jnum 0))) with
                | none => none
                | some tp0 =>
                    let tp := if tp0 = 0 ∧ 0 < price then price * (qty : ℚ) else tp0
                    some { product_id := pid, product_name := pname, quantity := qty,
                           price := price, total_price := tp,
                           max_quantity := pyOr (v.pyGet "max_quantity") (v.pyGet "stock_limit") }
  | _ => none

/-- Field-name lists probed by `BlinkitCart._parse_cart_response`. -/
def subtotal_fields : List String := ["subtotal", "sub_total", "items_total"]

/-- Delivery-fee field names of `_parse_cart_response`. -/
def delivery_fee_fields : List String := ["delivery_fee", "shipping_fee", "delivery_charge"]

/-- Tax field names of `_parse_cart_response`. -/
def taxes_fields : List String := ["taxes", "tax", "gst", "vat"]

/-- Grand-total field names of `_parse_cart_response`. -/
def total_fields : List String := ["total", "total_amount", "grand_total"]

/-- The totals computation of `_parse_cart_response`: extract the four
amounts, then overwrite the grand total with subtotal + delivery fee +
taxes only when the extracted total is `0.0` and the extracted subtotal
is positive. Returned as (subtotal, delivery fee, taxes, total). -/
def cart_totals (cart_data : JValue) : ℚ × ℚ × ℚ × ℚ :=
  let subtotal := extract_amount cart_data subtotal_fields
  let delivery_fee := extract_amount cart_data delivery_fee_fields
  let taxes := extract_amount cart_data taxes_fields
  let total0 := extract_amount cart_data total_fields
  let total := if total0 = 0 ∧ 0 < subtotal then subtotal + delivery_fee + taxes else total0
  (subtotal, delivery_fee, taxes, total)

/-- The container selection of `_parse_cart_response`: descend into
`response["cart"]`, else `response["data"]`, else use the response
itself; the membership probes raise on scalar responses. -/
def select_cart_data (r : JValue) : Except String JValue := do
  let hasCart ← pyInE "cart" r
  if hasCart then pyIndexE r "cart"
  else
    let hasData ← pyInE "data" r
    if hasData then pyIndexE r "data" else pure r

/-- The item-list selection of `_parse_cart_response`: the first truthy
of `items`/`products`/`cart_items` (defaults `[]`) is iterated; a
truthy non-iterable raises; no truthy candidate leaves the items empty.
The three `.get` calls raise when the cart data is not a dict. -/
def cart_item_lists (cart_data : JValue) : Except String (List JValue) :=
  match cart_data with
  | .jobj _ =>
      let l1 := cart_data.pyGetD "items" (.jarr [])
      let l2 := cart_data.pyGetD "products" (.jarr [])
      let l3 := cart_data.pyGetD "cart_items" (.jarr [])
      if l1.pyTruthy then pyIterE l1
      else if l2.pyTruthy then pyIterE l2
      else if l3.pyTruthy then pyIterE l3
      else .ok []
  | _ => .error "AttributeError: get"

/-- The `try` body of `BlinkitCart._parse_cart_response`. -/
def parse_cart_response_E (r : JValue) : Except String Cart :=
  match select_cart_data r with
  | .error e => .error e
  | .ok cart_data =>
      match cart_item_lists cart_data with
      | .error e => .error e
      | .ok raw_items =>
          let items := raw_items.filterMap parse_cart_item
          let t := cart_totals cart_data
          .ok { items := items, total_items := items.length,
                subtotal := t.1, delivery_fee := t.2.1, taxes := t.2.2.1,
                total_amount := t.2.2.2,
                min_order_value :=
                  match cart_data.jlookup "min_order_value" with
                  | some .jnull => none
                  | some w => some w
                  | none => none }

/-- `BlinkitCart._parse_cart_response`: any exception inside the body is
caught and yields the default empty cart. -/
def parse_cart_response (r : JValue) : Cart :=
  match parse_cart_response_E r with
  | .ok c => c
  | .error _ => empty_cart

/-- The candidate endpoints of `BlinkitCart.add_to_cart`. -/
def add_endpoints : List String :=
  ["/v2/cart/add/", "/api/cart/add", "/v1/cart/items", "/cart/add"]

/-- The candidate endpoints of `BlinkitCart.get_cart`. -/
def cart_endpoints : List String :=
  ["/v2/cart/", "/api/cart", "/v1/cart/details", "/cart"]

/-- The candidate endpoints of `BlinkitCart.update_cart_item`. -/
def update_endpoints (product_id : String) : List String :=
  ["/v2/cart/update/", "/api/cart/update", "/v1/cart/items/" ++ product_id, "/cart/update"]

/-- The candidate endpoints of `BlinkitCart.remove_from_cart`. -/
def remove_endpoints (product_id : String) : List String :=
  ["/v2/cart/remove/", "/api/cart/remove", "/v1/cart/items/" ++ product_id, "/cart/remove"]

/-- Outcome of one cart mutation call: `success` for `return True`,
`failed` for the terminal `raise CartError(... last_error)`, and
`invalidQuantity` for the `raise ValueError` input guard. -/
inductive CartOpResult : Type where
  | success : CartOpResult
  | failed (last_error : Option Fault) : CartOpResult
  | invalidQuantity : CartOpResult
  deriving DecidableEq, Repr

/-- Whether one candidate's raw outcome is classified as a success: a
raised fault is never a success, a response is successful exactly when
the classifier returns `True` (a classifier exception is not success). -/
def classified_success (r : Except Fault JValue) : Bool :=
  match r with
  | .ok v =>
      match is_successful_cart_operation v with
      | .ok true => true
      | _ => false
  | .error _ => false

/-- The endpoint loop of `BlinkitCart.add_to_cart` over the candidates'
raw outcomes (one entry per endpoint, in listed order): a raised fault
is caught, recorded as `last_error`, and the loop continues; a response
classified successful returns immediately; a classifier exception is
caught like any other. Returns the outcome and how many candidates were
invoked. -/
def add_to_cart_loop : List (Except Fault JValue) → Option Fault → CartOpResult × ℕ
  | [], le => (.failed le, 0)
  | .error f :: rest, _ =>
      let (r, n) := add_to_cart_loop rest (some f)
      (r, n + 1)
  | .ok v :: rest, le =>
      match is_successful_cart_operation v with
      | .ok true => (.success, 1)
      | .ok false =>
          let (r, n) := add_to_cart_loop rest le
          (r, n + 1)
      | .error m =>
          let (r, n) := add_to_cart_loop rest (some (.otherFault m))
          (r, n + 1)

/-- `BlinkitCart.add_to_cart`: the quantity guard (`raise ValueError`
for quantity ≤ 0) followed by the endpoint loop. -/
def add_to_cart (quantity : ℤ) (candidates : List (Except Fault JValue)) :
    CartOpResult × ℕ :=
  if quantity ≤ 0 then (.invalidQuantity, 0)
  else add_to_cart_loop candidates none

/-- The endpoint loop of `BlinkitCart.get_cart`: faults and classifier
exceptions are caught and the loop continues; the first response the
validity classifier accepts is parsed and returned; exhaustion yields
the default empty cart. -/
def get_cart_loop : List (Except Fault JValue) → Cart
  | [] => empty_cart
  | .error _ :: rest => get_cart_loop rest
  | .ok v :: rest =>
      match is_valid_cart_response v with
      | .ok true => parse_cart_response v
      | _ => get_cart_loop rest

/-- Shared endpoint loop of `update_cart_item`/`remove_from_cart`: per
endpoint the inner method loop attempts `post` plus a second method
(`put` resp. `delete`) that fails at attribute lookup — the client
defines only `get`/`post` — so exactly one transport call (POST) is
issued per endpoint, and the inner blanket `except` swallows every
exception without recording it, leaving `last_error` at `None`.
Returns the outcome and the transport calls issued as
(method, endpoint) pairs. -/
def mutate_cart_loop (post : String → Except Fault JValue) :
    List String → CartOpResult × List (String × String)
  | [] => (.failed none, [])
  | ep :: rest =>
      match post ep with
      | .ok v =>
          match is_successful_cart_operation v with
          | .ok true => (.success, [("POST", ep)])
          | _ =>
              let (r, t) := mutate_cart_loop post rest
              (r, ("POST", ep) :: t)
      | .error _ =>
          let (r, t) := mutate_cart_loop post rest
          (r, ("POST", ep) :: t)

/-- `BlinkitCart.remove_from_cart`: the endpoint loop over the remove
endpoints (the `delete` attempt of each inner method pair fails at
attribute lookup, so only POST reaches the transport). -/
def remove_from_cart (product_id : String) (post : String → Except Fault JValue) :
    CartOpResult × List (String × String) :=
  mutate_cart_loop post (remove_endpoints product_id)

/-- `BlinkitCart.update_cart_item`: negative quantities are rejected by
`raise ValueError` before any transport call, quantity 0 delegates to
`remove_from_cart`, otherwise the update endpoint loop runs. -/
def update_cart_item (product_id : String) (quantity : ℤ)
    (post : String → Except Fault JValue) : CartOpResult × List (String × String) :=
  if quantity < 0 then (.invalidQuantity, [])
  else if quantity = 0 then remove_from_cart product_id post
  else mutate_cart_loop post (update_endpoints product_id)

/-- Raw outcome of one HTTP attempt inside
`BlinkitAPIClient._make_request`: an `aiohttp.ClientError`, any other
exception, or a completed response with status, body text and the value
`json.loads` produces for that text (`jobj []` for empty text, the
`raw_response` wrapper for non-JSON text, per the source). -/
inductive AttemptOutcome : Type where
  | netError (msg : String) : AttemptOutcome
  | otherError (msg : String) : AttemptOutcome
  | httpResponse (status : ℕ) (text : String) (body : JValue) : AttemptOutcome
  deriving Repr

/-- Result of `_make_request`: a propagated fault or a returned value. -/
inductive ReqResult : Type where
  | raised (f : Fault) : ReqResult
  | returned (v : JValue) : ReqResult
  deriving Repr

/-- The error structure returned for HTTP status ≥ 400 (other than
401/429): `error`/`status`/truncated `message`. -/
def error_struct (status : ℕ) (text : String) : JValue :=
  .jobj [("error", .jbool true), ("status", .jnum (status : ℚ)),
         ("message", .jstr ((text.toList.take 500).asString))]

/-- The structure returned when all retries are exhausted, carrying the
string of the last observed exception. -/
def exhaust_struct : Option String → JValue
  | some m => .jobj [("error", .jbool true), ("message", .jstr m)]
  | none => .jobj [("error", .jbool true), ("message", .jstr "Max retries exceeded")]

/-- `APIConfig.max_retries`. -/
def max_retries : ℕ := 3

/-- The retry loop of `BlinkitAPIClient._make_request`, fed the raw
outcome of each attempt: status 401/429 raise immediately; other ≥ 400
statuses return the error structure immediately; a parsed body returns
immediately; an `aiohttp.ClientError` sleeps `2 ^ attempt` seconds and
retries unless it was the last attempt; any other exception sleeps 1
second and retries likewise. Returns the result, the list of sleep
delays (seconds), and the number of attempts consumed. -/
def make_request_go (f : ℕ → AttemptOutcome) :
    (fuel : ℕ) → (attempt : ℕ) → Option String → ReqResult × List ℚ × ℕ
  | 0, _, le => (.returned (exhaust_struct le), [], 0)
  | fuel + 1, i, _ =>
      match f i with
      | .httpResponse status text body =>
          if status = 401 then (.raised .authFault, [], 1)
          else if status = 429 then (.raised .rateLimitFault, [], 1)
          else if 400 ≤ status then (.returned (error_struct status text), [], 1)
          else (.returned body, [], 1)
      | .netError m =>
          let le2 := some ("Network error: " ++ m)
          match fuel with
          | 0 => (.returned (exhaust_struct le2), [], 1)
          | fuel2 + 1 =>
              let (res, ds, n) := make_request_go f (fuel2 + 1) (i + 1) le2
              (res, ((2 : ℚ) ^ i) :: ds, n + 1)
      | .otherError m =>
          let le2 := some ("Unexpected error: " ++ m)
          match fuel with
          | 0 => (.returned (exhaust_struct le2), [], 1)
          | fuel2 + 1 =>
              let (res, ds, n) := make_request_go f (fuel2 + 1) (i + 1) le2
              (res, (1 : ℚ) :: ds, n + 1)

/-- `BlinkitAPIClient._make_request` with `max_retries = 3`. -/
def make_request (f : ℕ → AttemptOutcome) : ReqResult × List ℚ × ℕ :=
  make_request_go f max_retries 0 none

/-- A product card rendered on the page (browser mode): the DOM id the
locator `div[id=...]` matches, and the card's visible text, against
which Playwright `has_text` filters match. -/
structure PCard : Type where
  id : String
  text : String
  deriving DecidableEq, Repr

/-- One `manager.known_products` entry as written by the search
service: the originating query (`.get("source_query")`, possibly
`None`) and the display name (`.get("name", "")`). -/
structure KnownInfo : Type where
  source_query : Option String
  name : String
  deriving DecidableEq, Repr

/-- The page/manager state `CartService.add_to_cart` consults: the
currently rendered cards, the manager's known-products map, and the
cards rendered after re-running a given search query
(`manager.search_product`). -/
structure BrowserEnv : Type where
  view : List PCard
  known_products : List (String × KnownInfo)
  search_view : String → List PCard

/-- `page.locator("div[id='...']")` on a card list. -/
def find_card (view : List PCard) (pid : String) : Option PCard :=
  view.find? (fun c => c.id == pid)

/-- `page.locator("div[role='button']").filter(has_text="ADD")`. -/
def add_cards (view : List PCard) : List PCard :=
  view.filter (fun c => strContains c.text "ADD")

/-- The card-location phase of `CartService.add_to_cart` (source steps
1-2, lines 9-63): find the card by id on the current page; when absent
and a known-products entry with a source query exists, re-search that
query once, retry the id lookup, then fall back to the first
ADD-bearing card whose text contains the first word of the recorded
name; when absent with no usable entry, fall back to the first
available ADD-bearing card on the current page. Returns the searches
issued and the card the remaining steps operate on (`none` models the
bare `return` — the caller-visible value is `None` on every path). -/
def locate_card (env : BrowserEnv) (pid : String) : List String × Option PCard :=
  match find_card env.view pid with
  | some c => ([], some c)
  | none =>
      match (env.known_products.find? (fun p => p.1 == pid)).map Prod.snd with
      | some info =>
          match info.source_query with
          | some q =>
              let v2 := env.search_view q
              match find_card v2 pid with
              | some c => ([q], some c)
              | none =>
                  if info.name != "" then
                    match ((add_cards v2).filter
                        (fun c => strContains c.text (firstWord info.name))).head? with
                    | some c => ([q], some c)
                    | none => ([q], none)
                  else ([q], none)
          | none => ([], none)
      | none =>
          match (add_cards env.view).head? with
          | some c => ([], some c)
          | none => ([], none)

/-- The page state `CartService.get_cart_items` queries, one field per
`is_visible`/locator probe in source order. -/
structure CartPage : Type where
  cart_button_found : Bool
  cant_take_order_visible : Bool
  currently_unavailable_visible : Bool
  high_demand_visible : Bool
  bill_details_visible : Bool
  proceed_visible : Bool
  ordering_for_visible : Bool
  store_closed_visible : Bool
  drawer_found : Bool
  drawer_text : String
  deriving DecidableEq, Repr

/-- The string returned when the initial visibility probes detect an
unavailable store. -/
def unavailable_store_msg : String :=
  "CRITICAL: Store is unavailable. \x27Sorry, can\x27t take your order\x27. Please try again later."

/-- The string returned when `_is_store_closed` fires. -/
def store_closed_msg : String := "CRITICAL: Store is closed."

/-- The string returned when an unavailability phrase is found inside
the scraped drawer text. -/
def unavailable_in_cart_msg : String :=
  "CRITICAL: Store is unavailable (Text detected in cart). Please try again later."

/-- The string returned when no drawer was scraped but the cart looks
active. -/
def cart_active_msg : String :=
  "Cart is open. (Could not scrape specific drawer content, but functionality is active)."

/-- The string returned when the cart opened but shows no activity
markers. -/
def cart_empty_warning_msg : String :=
  "WARNING: Cart opened but seems empty or store is unavailable (No bill details/proceed button found)."

/-- `CartService.get_cart_items` (non-exception path): the critical
availability probes run first; then the store-closed probe; then, when
a drawer is scraped, its text is searched for the two unavailability
phrases before being returned as the success value. -/
def get_cart_items (p : CartPage) : String :=
  if p.cart_button_found then
    if p.cant_take_order_visible || p.currently_unavailable_visible
        || p.high_demand_visible then
      unavailable_store_msg
    else
      let is_cart_active := p.bill_details_visible || p.proceed_visible
        || p.ordering_for_visible
      if p.store_closed_visible then store_closed_msg
      else if p.drawer_found then
        if strContains p.drawer_text "Currently unavailable"
            || strContains p.drawer_text "can\x27t take your order" then
          unavailable_in_cart_msg
        else p.drawer_text
      else if is_cart_active then cart_active_msg
      else cart_empty_warning_msg
  else "Cart button not found."

/-- The spec's fixed unavailability phrase list, stated from the spec's
words for formulating claim C2 (the source has no single such list). -/
def spec_unavailability_phrases : List String :=
  ["currently unavailable", "can\x27t take your order", "high demand", "store is closed"]

/-- Claim-side predicate: some fixed unavailability phrase occurs in
the string (case-insensitively). -/
def contains_unavailability_phrase (s : String) : Bool :=
  spec_unavailability_phrases.any (fun p => strContains (strToLower s) p)

/-- A deterministic structural string hash standing in for Python's
`hash()` (whose value is implementation-defined); the claims depend
only on determinism and non-negativity. -/
def pyHashNat (s : String) : ℕ :=
  s.toList.foldl (fun h c => h * 31 + c.toNat) 7

/-- `str(hash(str(item)))`, the fallback product id of
`BlinkitSearch._parse_single_product`: the decimal rendering of the
hash, a non-empty string. -/
def py_hash_str (v : JValue) : String :=
  Nat.repr (pyHashNat (pyStr v))

/-- The original-price field names of
`BlinkitSearch._extract_original_price`; its field walk is textually
the same loop as `_extract_price`'s top walk, so it is embedded as
`extract_price_loop` over these fields. -/
def original_price_fields : List String :=
  ["original_price", "mrp", "list_price", "base_price", "regular_price"]

/-- The stock-flag field names of `_extract_stock_status`. -/
def stock_indicator_fields : List String :=
  ["in_stock", "available", "is_available", "stock_available"]

/-- The quantity field names of `_extract_stock_status`. -/
def stock_quantity_fields : List String :=
  ["quantity", "stock_quantity", "available_quantity"]

/-- First loop of `_extract_stock_status`: booleans pass through,
strings are matched against the positive vocabulary, numbers mean
positive stock; a present value of any other type falls through to the
next field. -/
def stock_loop (item : JValue) : List String → Option Bool
  | [] => none
  | f :: rest =>
      match item.jlookup f with
      | some (.jbool b) => some b
      | some (.jstr s) => some (["true", "available", "in_stock", "yes"].contains (strToLower s))
      | some (.jnum q) => some (decide (0 < q))
      | _ => stock_loop item rest

/-- Quantity loop of `_extract_stock_status`: `int()` each present
quantity, skipping coercion failures. -/
def stock_qty_loop (item : JValue) : List String → Option Bool
  | [] => none
  | f :: rest =>
      match item.jlookup f with
      | some v =>
          match pyInt v with
          | some n => some (decide (0 < n))
          | none => stock_qty_loop item rest
      | none => stock_qty_loop item rest

/-- `BlinkitSearch._extract_stock_status`: flags, then an unconditional
`stock_status` string comparison when that key exists, then
quantities, defaulting to available. -/
def extract_stock_status (item : JValue) : Bool :=
  match stock_loop item stock_indicator_fields with
  | some b => b
  | none =>
      match item.jlookup "stock_status" with
      | some v => ["available", "in_stock", "active"].contains (strToLower (pyStr v))
      | none =>
          match stock_qty_loop item stock_quantity_fields with
          | some b => b
          | none => true

/-- The image field names of `_extract_image_url`. -/
def image_fields : List String :=
  ["image_url", "image", "thumbnail", "photo", "picture", "img_url"]

/-- First loop of `_extract_image_url`: a truthy string value wins. -/
def extract_image_loop (item : JValue) : List String → Option String
  | [] => none
  | f :: rest =>
      match item.jlookup f with
      | some (.jstr s) => if s != "" then some s else extract_image_loop item rest
      | _ => extract_image_loop item rest

/-- `BlinkitSearch._extract_image_url`: the field walk, then the first
element of a non-empty `images` list (string directly, dict through
`url`/`src`/`href`), else `None`. -/
def extract_image_url (item : JValue) : JValue :=
  match extract_image_loop item image_fields with
  | some s => .jstr s
  | none =>
      match item.jlookup "images" with
      | some (.jarr (first :: _)) =>
          match first with
          | .jstr s => .jstr s
          | .jobj fs =>
              pyOr ((JValue.jobj fs).pyGet "url")
                (pyOr ((JValue.jobj fs).pyGet "src") ((JValue.jobj fs).pyGet "href"))
          | _ => .jnull
      | _ => .jnull

/-- Round half to even at the given scale, modelling Python `round(x, 2)`
exactly over rationals (the source only displays the result). -/
def roundHalfEven (x : ℚ) : ℤ :=
  let f := ⌊x⌋
  let r := x - (f : ℚ)
  if r < 1 / 2 then f
  else if 1 / 2 < r then f + 1
  else if 2 ∣ f then f else f + 1

/-- `round(x, 2)` over rationals. -/
def pyRound2 (x : ℚ) : ℚ :=
  (roundHalfEven (x * 100) : ℚ) / 100

/-- `models.Product` as populated by `_parse_single_product`: the id is
stringified, monetary fields are parsed, and the remaining fields keep
whatever raw value the `or`-chains produce. -/
structure Product : Type where
  id : String
  name : JValue
  price : ℚ
  original_price : Option ℚ
  discount : Option ℚ
  unit : JValue
  brand : JValue
  category : JValue
  image_url : JValue
  in_stock : Bool
  max_quantity : JValue
  deriving Repr

/-- `BlinkitSearch._parse_single_product`: non-dicts yield `None`; the
id falls back through four field names to `str(hash(str(item)))`, which
is always a non-empty (truthy) string, so the `if not product_id`
guard can only be reached dead; every other field extraction is total,
so a dict input always yields a record. -/
def parse_single_product (item : JValue) : Option Product :=
  match item with
  | .jobj _ =>
      let pid := pyOr (item.pyGet "id") (pyOr (item.pyGet "product_id")
        (pyOr (item.pyGet "sku") (pyOr (item.pyGet "pid") (.jstr (py_hash_str item)))))
      if !pid.pyTruthy then none
      else
        let price := extract_price item
        let original_price := extract_price_loop item original_price_fields
        let discount : Option ℚ :=
          match original_price with
          | some o =>
              if o ≠ 0 ∧ price ≠ 0 ∧ price < o then
                some (pyRound2 ((o - price) / o * 100))
              else none
          | none => none
        some { id := pyStr pid,
               name := pyOr (item.pyGet "name") (pyOr (item.pyGet "title")
                 (pyOr (item.pyGet "product_name")
                   (pyOr (item.pyGet "display_name") (.jstr "Unknown Product")))),
               price := price,
               original_price := original_price,
               discount := discount,
               unit := pyOr (item.pyGet "unit") (pyOr (item.pyGet "pack_size")
                 (pyOr (item.pyGet "quantity_unit") (.jstr ""))),
               brand := pyOr (item.pyGet "brand") (pyOr (item.pyGet "brand_name") (.jstr "")),
               category := pyOr (item.pyGet "category")
                 (pyOr (item.pyGet "category_name") (.jstr "")),
               image_url := extract_image_url item,
               in_stock := extract_stock_status item,
               max_quantity := pyOr (item.pyGet "max_quantity")
                 (pyOr (item.pyGet "max_order_quantity") (.jnum 10)) }
  | _ => none

/-- `models.Address` as populated by `_parse_single_address`: the id is
stringified, `is_default` goes through `bool()`, the rest keep the raw
values of their `or`-chains/defaults. -/
structure Address : Type where
  id : String
  type : JValue
  line1 : JValue
  line2 : JValue
  city : JValue
  state : JValue
  pincode : JValue
  landmark : JValue
  is_default : Bool
  deriving Repr

/-- `BlinkitCheckout._parse_single_address`: the id is
`str(addr.get("id") or addr.get("address_id"))`, so when both fields
are missing it is the string `"None"` and the `if not address_id`
guard never fires; a non-dict input raises and is caught to `None`. -/
def parse_single_address (addr : JValue) : Option Address :=
  match addr with
  | .jobj _ =>
      let aid := pyStr (pyOr (addr.pyGet "id") (addr.pyGet "address_id"))
      if aid == "" then none
      else
        some { id := aid,
               type := addr.pyGetD "type" (.jstr "other"),
               line1 := pyOr (addr.pyGet "line1")
                 (pyOr (addr.pyGet "address_line_1") (.jstr "")),
               line2 := pyOr (addr.pyGet "line2") (addr.pyGet "address_line_2"),
               city := addr.pyGetD "city" (.jstr ""),
               state := addr.pyGetD "state" (.jstr ""),
               pincode := pyOr (addr.pyGet "pincode")
                 (pyOr (addr.pyGet "postal_code") (.jstr "")),
               landmark := addr.pyGet "landmark",
               is_default := (addr.pyGetD "is_default" (.jbool false)).pyTruthy }
  | _ => none

/-- Whether one candidate's raw outcome passes the cart-validity
classifier of `get_cart` (faults and classifier exceptions do not). -/
def classified_valid (r : Except Fault JValue) : Bool :=
  match r with
  | .ok v =>
      match is_valid_cart_response v with
      | .ok true => true
      | _ => false
  | .error _ => false

/-- A concrete page used as a test input: the cart drawer is active
(bill details and proceed present) and its scraped text embeds an
unavailability phrase. -/
def conflict_cart_page : CartPage :=
  { cart_button_found := true, cant_take_order_visible := false,
    currently_unavailable_visible := false, high_demand_visible := false,
    bill_details_visible := true, proceed_visible := true,
    ordering_for_visible := false, store_closed_visible := false,
    drawer_found := true, drawer_text := "Bill details Currently unavailable" }

/-- A concrete browser state used as a test input: the product "X123"
was recorded from the query "milk", is absent from the current (empty)
view, and re-searching "milk" renders it again. -/
def milk_env : BrowserEnv :=
  { view := [],
    known_products := [("X123", { source_query := some "milk", name := "Cow Milk" })],
    search_view := fun q =>
      if q == "milk" then [{ id := "X123", text := "Cow Milk ADD" }] else [] }

/-- A concrete cart response used as a test input: one item and a
delivery fee, but no subtotal and no grand-total field. -/
def zero_total_cart_response : JValue :=
  .jobj [("items", .jarr [.jobj [("id", .jstr "1"), ("quantity", .jnum 2),
                                 ("price", .jnum 10)]]),
         ("delivery_fee", .jnum 5)]

/-- A concrete cart response used as a test input: a subtotal and a
delivery fee but no grand-total field. -/
def subtotal_cart_response : JValue :=
  .jobj [("subtotal", .jnum 25), ("delivery_fee", .jnum 5)]

/-!  Theorems. Batteries marks the rational operations `@[irreducible]`;
they are restored to the default reducibility inside this namespace so
that concrete runs of the embedded functions reduce definitionally. -/

attribute [local semireducible] Rat.add Rat.mul Rat.sub Rat.inv

/-- Helper: the endpoint loop of `add_to_cart` run on a candidate list
whose first classified success is `c`, preceded by non-successes,
returns success having invoked exactly the candidates up to and
including `c`, for every incoming `last_error` accumulator. -/
lemma add_to_cart_loop_first_success
    (pre : List (Except Fault JValue)) (c : Except Fault JValue)
    (post : List (Except Fault JValue)) (le : Option Fault)
    (hpre : ∀ x ∈ pre, classified_success x = false)
    (hc : classified_success c = true) :
    add_to_cart_loop (pre ++ c :: post) le = (.success, pre.length + 1) := by
  induction pre generalizing le with
  | nil =>
      cases c with
      | error f => simp [classified_success] at hc
      | ok v =>
          cases hcl : is_successful_cart_operation v with
          | error m => simp [classified_success, hcl] at hc
          | ok b =>
              cases b with
              | false => simp [classified_success, hcl] at hc
              | true => simp [add_to_cart_loop, hcl]
  | cons x pre ih =>
      have hx : classified_success x = false := hpre x (by simp)
      have hpre2 : ∀ y ∈ pre, classified_success y = false := fun y hy =>
        hpre y (by simp [hy])
      cases x with
      | error f =>
          simp [add_to_cart_loop, ih (some f) hpre2]
      | ok v =>
          cases hcl : is_successful_cart_operation v with
          | error m =>
              simp [add_to_cart_loop, hcl, ih (some (.otherFault m)) hpre2]
          | ok b =>
              cases b with
              | true => simp [classified_success, hcl] at hx
              | false =>
                  simp [add_to_cart_loop, hcl, ih le hpre2]

/-- Claim C1: for every positive quantity and every candidate list
consisting of a prefix of candidates classified non-successful, then a
candidate classified successful, then arbitrary further candidates,
`BlinkitCart.add_to_cart` returns success and invokes exactly the
prefix plus the successful candidate: every earlier candidate was
attempted and found non-successful, and no candidate after the first
classified success is ever invoked. -/
theorem add_to_cart_first_success_in_order
    (quantity : ℤ) (hq : 0 < quantity)
    (pre : List (Except Fault JValue)) (c : Except Fault JValue)
    (post : List (Except Fault JValue))
    (hpre : ∀ x ∈ pre, classified_success x = false)
    (hc : classified_success c = true) :
    add_to_cart quantity (pre ++ c :: post) = (.success, pre.length + 1) := by
  have hnle : ¬quantity ≤ 0 := by omega
  simp only [add_to_cart, if_neg hnle]
  exact add_to_cart_loop_first_success pre c post none hpre hc

/-- Witness for C1: candidate 1 returns a response with no success
indicator, candidate 2 succeeds, candidate 3 raises; the operation
succeeds after invoking exactly two candidates. -/
theorem add_to_cart_first_success_in_order_witness :
    add_to_cart 1
      [Except.ok (JValue.jobj [("status", .jstr "pending"), ("error", .jstr "nope")]),
       Except.ok (JValue.jobj [("success", .jbool true)]),
       Except.error (Fault.otherFault "never invoked")] = (.success, 2) :=
  add_to_cart_first_success_in_order 1 (by norm_num)
    [Except.ok (JValue.jobj [("status", .jstr "pending"), ("error", .jstr "nope")])]
    (Except.ok (JValue.jobj [("success", .jbool true)]))
    [Except.error (Fault.otherFault "never invoked")]
    (by intro x hx; rw [List.mem_singleton] at hx; subst hx; rfl) rfl

/-- Claim C2, counterexample: the HTTP-mode cart-operation classifier
has no unavailability check at all — a response carrying both a success
marker and the unavailability phrase "store is closed" is classified as
a success, not as unavailable, contradicting the claim. -/
theorem http_classifier_ignores_unavailability :
    is_successful_cart_operation
      (.jobj [("success", .jbool true), ("message", .jstr "store is closed")]) = .ok true ∧
    contains_unavailability_phrase "store is closed" = true :=
  ⟨rfl, rfl⟩

/-- Claim C2, amended: unavailability precedence holds only in the
browser-mode cart read — whenever `get_cart_items` scrapes a drawer
whose text contains an unavailability phrase, the read returns one of
the three critical unavailability messages, never the drawer content as
a success value — while the HTTP-mode cart-operation classifier checks
only success indicators and classifies a response carrying both a
success marker and an unavailability phrase as success. -/
theorem cart_read_unavailability_precedence :
    (∀ p : CartPage, p.cart_button_found = true → p.drawer_found = true →
      (strContains p.drawer_text "Currently unavailable" = true ∨
       strContains p.drawer_text "can\x27t take your order" = true) →
      (get_cart_items p = unavailable_store_msg ∨
       get_cart_items p = store_closed_msg ∨
       get_cart_items p = unavailable_in_cart_msg)) ∧
    is_successful_cart_operation
      (.jobj [("success", .jbool true), ("message", .jstr "high demand")]) = .ok true := by
  constructor
  · intro p hbtn hdr hph
    have hph2 : (strContains p.drawer_text "Currently unavailable"
        || strContains p.drawer_text "can\x27t take your order") = true := by
      rcases hph with h | h <;> simp [h]
    simp only [get_cart_items, hbtn, hdr, hph2, if_true]
    split_ifs <;> simp
  · rfl

/-- Witness for C2's amended theorem: a page whose cart drawer is
active (bill details and proceed button present) but whose drawer text
embeds "Currently unavailable" yields a critical unavailability
message. -/
theorem cart_read_unavailability_precedence_witness :
    get_cart_items conflict_cart_page = unavailable_store_msg ∨
    get_cart_items conflict_cart_page = store_closed_msg ∨
    get_cart_items conflict_cart_page = unavailable_in_cart_msg :=
  cart_read_unavailability_precedence.1 conflict_cart_page rfl rfl (Or.inl rfl)

/-- Claim C3, counterexample: when the target id is absent from the
view and no `KnownProductEntry` exists, `CartService.add_to_cart` picks
the first ADD-bearing card on the page as a fallback and proceeds to
operate on it — a silent substitution; the function's return value is
`None` on every path, so nothing flags the substitution to the caller. -/
theorem add_to_cart_first_product_substitution :
    (locate_card { view := [{ id := "Y1", text := "Milk Pack ADD" }],
                   known_products := [],
                   search_view := fun _ => [] } "X123")
      = ([], some { id := "Y1", text := "Milk Pack ADD" }) ∧ ("Y1" : String) ≠ "X123" :=
  ⟨rfl, by decide⟩

/-- Claim C3, amended: the claimed behavior holds on the
known-product branch — given a `KnownProductEntry` with a source query
for an id absent from the view, exactly one re-search of that query is
issued, the card then operated on is either the requested id or a card
matched by the name-substring fallback, and if both the retried lookup
and the name fallback fail the operation returns without acting
(not-locatable) — but when no entry exists the operation substitutes
the first available product, flagged only on the console, never in the
return value. -/
theorem known_product_single_research_or_not_locatable
    (env : BrowserEnv) (pid : String) (info : KnownInfo) (q : String)
    (habs : find_card env.view pid = none)
    (hknown : (env.known_products.find? (fun p => p.1 == pid)).map Prod.snd = some info)
    (hq : info.source_query = some q) :
    (locate_card env pid).1 = [q] ∧
    (∀ c, (locate_card env pid).2 = some c →
        c.id = pid ∨
        (info.name ≠ "" ∧ strContains c.text "ADD" = true ∧
         strContains c.text (firstWord info.name) = true)) ∧
    ((find_card (env.search_view q) pid = none ∧
      ((add_cards (env.search_view q)).filter
          (fun c => strContains c.text (firstWord info.name))).head? = none) →
      (locate_card env pid).2 = none) := by
  cases h2 : find_card (env.search_view q) pid with
  | some c =>
      have heq : locate_card env pid = ([q], some c) := by
        simp [locate_card, habs, hknown, hq, h2]
      rw [heq]
      refine ⟨rfl, ?_, ?_⟩
      · intro c2 hc2
        have hc2a : some c = some c2 := hc2
        injection hc2a with hcc
        subst hcc
        left
        have h2b : (env.search_view q).find? (fun x => x.id == pid) = some c := h2
        have h2c := List.find?_some h2b
        have h2d : (c.id == pid) = true := h2c
        exact eq_of_beq h2d
      · rintro ⟨hfc, -⟩
        exact absurd hfc (by simp)
  | none =>
      by_cases hname : info.name = ""
      · have hname2 : (info.name != "") = false := by simp [bne, hname]
        have heq : locate_card env pid = ([q], none) := by
          simp [locate_card, habs, hknown, hq, h2, hname2]
        rw [heq]
        exact ⟨rfl, fun c2 hc2 => absurd hc2 (by simp), fun _ => rfl⟩
      · have hname2 : (info.name != "") = true := by simp [bne, hname]
        cases h3 : ((add_cards (env.search_view q)).filter
            (fun c => strContains c.text (firstWord info.name))).head? with
        | some c =>
            have heq : locate_card env pid = ([q], some c) := by
              simp [locate_card, habs, hknown, hq, h2, hname2, h3]
            rw [heq]
            refine ⟨rfl, ?_, ?_⟩
            · intro c2 hc2
              have hc2a : some c = some c2 := hc2
              injection hc2a with hcc
              subst hcc
              right
              rcases List.head?_eq_some_iff.mp h3 with ⟨ys, hys⟩
              have hmem : c ∈ (add_cards (env.search_view q)).filter
                  (fun x => strContains x.text (firstWord info.name)) := by
                rw [hys]; exact List.mem_cons_self _ _
              rw [List.mem_filter] at hmem
              have hmem2 := hmem.1
              unfold add_cards at hmem2
              rw [List.mem_filter] at hmem2
              exact ⟨hname, hmem2.2, hmem.2⟩
            · rintro ⟨-, hflt⟩
              exact absurd hflt (by simp)
        | none =>
            have heq : locate_card env pid = ([q], none) := by
              simp [locate_card, habs, hknown, hq, h2, hname2, h3]
            rw [heq]
            exact ⟨rfl, fun c2 hc2 => absurd hc2 (by simp), fun _ => rfl⟩

/-- Witness for C3's amended theorem: id "X123" recorded from query
"milk", absent from the (empty) current view; the re-search renders it
again and the located card is the requested product after exactly one
re-search. -/
theorem known_product_single_research_or_not_locatable_witness :
    (locate_card milk_env "X123").1 = ["milk"] ∧
    (∀ c, (locate_card milk_env "X123").2 = some c →
        c.id = "X123" ∨
        (("Cow Milk" : String) ≠ "" ∧ strContains c.text "ADD" = true ∧
         strContains c.text (firstWord "Cow Milk") = true)) ∧
    ((find_card (milk_env.search_view "milk") "X123" = none ∧
      ((add_cards (milk_env.search_view "milk")).filter
          (fun c => strContains c.text (firstWord "Cow Milk"))).head? = none) →
      (locate_card milk_env "X123").2 = none) :=
  known_product_single_research_or_not_locatable milk_env "X123"
    { source_query := some "milk", name := "Cow Milk" } "milk" rfl rfl rfl


/-- Claim C4: the retry loop of `BlinkitAPIClient._make_request`
(ceiling `max_retries = 3`) applies exponential backoff — delays
doubling from 1 second — only to transport-level faults; any completed
HTTP response (success or business-level error body) returns after a
single attempt with no retry and no delay; and when all three attempts
fail at the transport level the request terminates with the error
structure carrying the last observed fault. -/
theorem make_request_retry_policy :
    (∀ m : ℕ → String, make_request (fun i => .netError (m i)) =
      (.returned (exhaust_struct (some ("Network error: " ++ m 2))), [1, 2], 3)) ∧
    (∀ (f : ℕ → AttemptOutcome) (s : ℕ) (t : String) (b : JValue),
      f 0 = .httpResponse s t b → s ≠ 401 → s ≠ 429 →
      make_request f = (.returned (if 400 ≤ s then error_struct s t else b), [], 1)) ∧
    (∀ (f : ℕ → AttemptOutcome) (m t : String) (b : JValue),
      f 0 = .netError m → f 1 = .httpResponse 200 t b →
      make_request f = (.returned b, [1], 2)) := by
  refine ⟨?_, ?_, ?_⟩
  · intro m
    simp [make_request, make_request_go, max_retries]
  · intro f s t b h0 h401 h429
    simp only [make_request, make_request_go, max_retries, h0, h401, h429]
    simp [h401, h429]
    split_ifs <;> rfl
  · intro f m t b h0 h1
    simp [make_request, make_request_go, max_retries, h0, h1]

/-- Witness for C4: three concrete requests — all attempts failing at
the network level, a 500 response returned without retry, and a network
fault followed by a 200 response after one 1-second backoff. -/
theorem make_request_retry_policy_witness :
    make_request (fun _ => .netError "boom") =
      (.returned (exhaust_struct (some "Network error: boom")), [1, 2], 3) ∧
    make_request (fun _ => .httpResponse 500 "oops" (.jobj [])) =
      (.returned (if 400 ≤ 500 then error_struct 500 "oops" else .jobj []), [], 1) ∧
    make_request (fun i =>
        if i = 0 then .netError "n" else .httpResponse 200 "ok" (.jobj [("ok", .jbool true)])) =
      (.returned (.jobj [("ok", .jbool true)]), [1], 2) :=
  ⟨make_request_retry_policy.1 (fun _ => "boom"),
   make_request_retry_policy.2.1 _ 500 "oops" (.jobj []) rfl (by decide) (by decide),
   make_request_retry_policy.2.2 _ "n" "ok" (.jobj [("ok", .jbool true)]) rfl rfl⟩

/-- Claim C5, counterexample: an `AuthenticationFault` raised by
candidate 1 of `BlinkitCart.add_to_cart` does not propagate to the
operation caller: the candidate loop catches it as a generic exception,
invokes candidate 2, and the operation returns success. -/
theorem auth_fault_swallowed_by_candidate_loop :
    add_to_cart 1 [Except.error Fault.authFault,
      Except.ok (.jobj [("success", .jbool true)])] = (.success, 2) := rfl

/-- Claim C5, amended: HTTP 401 and 429 propagate immediately out of
the single-request retry loop of `_make_request` — one attempt, no
delay, no retry — but the candidate loop of `add_to_cart` catches every
exception a candidate raises, so such a fault is swallowed there and
later candidates are attempted (and can make the operation succeed). -/
theorem faults_propagate_at_client_not_candidate_loop :
    (∀ (f : ℕ → AttemptOutcome) (t : String) (b : JValue),
      f 0 = .httpResponse 401 t b → make_request f = (.raised .authFault, [], 1)) ∧
    (∀ (f : ℕ → AttemptOutcome) (t : String) (b : JValue),
      f 0 = .httpResponse 429 t b → make_request f = (.raised .rateLimitFault, [], 1)) ∧
    (∀ (fault : Fault) (pre : List (Except Fault JValue)) (c : Except Fault JValue)
       (post : List (Except Fault JValue)),
      (∀ x ∈ pre, classified_success x = false) → classified_success c = true →
      add_to_cart_loop (Except.error fault :: (pre ++ c :: post)) none =
        (.success, pre.length + 2)) := by
  refine ⟨?_, ?_, ?_⟩
  · intro f t b h0
    simp [make_request, make_request_go, max_retries, h0]
  · intro f t b h0
    simp [make_request, make_request_go, max_retries, h0]
  · intro fault pre c post hpre hc
    have h := add_to_cart_loop_first_success pre c post (some fault) hpre hc
    simp [add_to_cart_loop, h]

/-- Witness for C5's amended theorem: concrete 401 and 429 responses
raise after one attempt; a concrete candidate list beginning with a
rate-limit fault still ends in success with both candidates invoked. -/
theorem faults_propagate_at_client_not_candidate_loop_witness :
    make_request (fun _ => .httpResponse 401 "denied" (.jobj [])) =
      (.raised .authFault, [], 1) ∧
    make_request (fun _ => .httpResponse 429 "slow down" (.jobj [])) =
      (.raised .rateLimitFault, [], 1) ∧
    add_to_cart_loop
      [Except.error Fault.rateLimitFault, Except.ok (.jobj [("success", .jbool true)])]
      none = (.success, 2) :=
  ⟨faults_propagate_at_client_not_candidate_loop.1 _ "denied" (.jobj []) rfl,
   faults_propagate_at_client_not_candidate_loop.2.1 _ "slow down" (.jobj []) rfl,
   faults_propagate_at_client_not_candidate_loop.2.2 Fault.rateLimitFault []
     (Except.ok (.jobj [("success", .jbool true)])) [] (by simp) rfl⟩


/-- Helper: the top field walk of `_extract_price` finds nothing when
none of the price fields is present. -/
lemma extract_price_loop_none (item : JValue) :
    ∀ l : List String, (∀ f ∈ l, item.jlookup f = none) →
      extract_price_loop item l = none := by
  intro l
  induction l with
  | nil => intro _; rfl
  | cons f rest ih =>
      intro h
      have hf : item.jlookup f = none := h f (by simp)
      simp only [extract_price_loop, hf]
      exact ih (fun g hg => h g (by simp [hg]))

/-- Claim C6, counterexample: the cart-side monetary extractor
`BlinkitCart._extract_amount` uses plain `float()` with no numeric-run
search, so the currency-prefixed string "₹46" is rejected and the
extraction yields `0.0`, not the claimed `46.0`. -/
theorem extract_amount_rejects_currency_string :
    extract_amount (.jobj [("subtotal", .jstr "₹46")]) subtotal_fields = 0 ∧
    (0 : ℚ) ≠ 46 :=
  ⟨rfl, by norm_num⟩

/-- Claim C6, amended: the search-side extractor
`BlinkitSearch._extract_price` parses the first numeric run and yields
`46.0` on all four claimed inputs, and `0.0` (never an exception — all
parse failures are caught) when no recognized price field is present;
the cart-side `BlinkitCart._extract_amount` is likewise total and
accepts numeric and plain decimal-string values, but yields `0.0` for
currency-prefixed strings such as "₹46". -/
theorem monetary_extraction_totality_and_divergence :
    extract_price (.jobj [("price", .jstr "₹46")]) = 46 ∧
    extract_price (.jobj [("price", .jnum 46)]) = 46 ∧
    extract_price (.jobj [("price", .jstr "46.00")]) = 46 ∧
    extract_price (.jobj [("price", .jstr "46")]) = 46 ∧
    (∀ fields : List (String × JValue),
      (∀ f ∈ price_fields, (JValue.jobj fields).jlookup f = none) →
      (JValue.jobj fields).jlookup "price_info" = none →
      extract_price (.jobj fields) = 0) ∧
    extract_amount (.jobj [("total", .jnum 46)]) total_fields = 46 ∧
    extract_amount (.jobj [("total", .jstr "46.00")]) total_fields = 46 ∧
    extract_amount (.jobj [("total", .jstr "₹46")]) total_fields = 0 := by
  refine ⟨by decide, rfl, by decide, by decide, ?_, rfl, by decide, rfl⟩
  intro fields h1 h2
  simp [extract_price, extract_price_loop_none _ _ h1, h2]

/-- Witness for C6's amended theorem: a record with no recognized
price field extracts to `0.0`. -/
theorem monetary_extraction_totality_and_divergence_witness :
    extract_price (.jobj [("name", .jstr "Unknown")]) = 0 :=
  monetary_extraction_totality_and_divergence.2.2.2.2.1
    [("name", .jstr "Unknown")] (by intro f hf; fin_cases hf <;> rfl) rfl

/-- Helper: when the extracted grand total is zero, the computed total
of `_parse_cart_response` is subtotal + delivery fee + taxes exactly
when the extracted subtotal is positive, and stays zero when the
extracted subtotal is zero. -/
lemma cart_totals_of_zero_total (d : JValue)
    (htot : extract_amount d total_fields = 0) :
    (0 < extract_amount d subtotal_fields →
      (cart_totals d).2.2.2 = (cart_totals d).1 + (cart_totals d).2.1 + (cart_totals d).2.2.1) ∧
    (extract_amount d subtotal_fields = 0 → (cart_totals d).2.2.2 = 0) := by
  constructor
  · intro hpos
    simp [cart_totals, htot, hpos]
  · intro hz
    simp [cart_totals, htot, hz]

/-- Claim C7, counterexample: a cart response with one parsed item and
a delivery fee but no subtotal/total fields parses to a cart whose
grand total is left at `0.0` although the item list is non-empty — and
`0 ≠ 0 + 5 + 0`, so `total_amount = subtotal + delivery_fee + taxes`
fails as well: the computation is guarded by `subtotal > 0`, and the
subtotal is extracted from fields only, never computed from the items. -/
theorem cart_total_left_zero_despite_items :
    (parse_cart_response zero_total_cart_response).items.length = 1 ∧
    extract_amount zero_total_cart_response total_fields = 0 ∧
    (parse_cart_response zero_total_cart_response).total_amount = 0 ∧
    (parse_cart_response zero_total_cart_response).subtotal +
      (parse_cart_response zero_total_cart_response).delivery_fee +
      (parse_cart_response zero_total_cart_response).taxes = 5 ∧
    (0 : ℚ) ≠ 5 :=
  ⟨rfl, rfl, rfl, by decide, by norm_num⟩

/-- Claim C7, amended: when the source supplies no grand total (the
extraction over the total fields yields zero), the parsed cart
satisfies `total_amount = subtotal + delivery_fee + taxes` exactly when
the extracted subtotal is positive; when the subtotal extraction also
yields zero — in particular when the response carries items but no
subtotal field, since the subtotal is never computed from the items —
the grand total is left at zero even with a non-empty item list. -/
theorem cart_grand_total_requires_positive_subtotal
    (r d : JValue) (c : Cart)
    (hsel : select_cart_data r = .ok d)
    (hparse : parse_cart_response_E r = .ok c)
    (htot : extract_amount d total_fields = 0) :
    parse_cart_response r = c ∧
    (0 < extract_amount d subtotal_fields →
      c.total_amount = c.subtotal + c.delivery_fee + c.taxes) ∧
    (extract_amount d subtotal_fields = 0 → c.total_amount = 0) := by
  refine ⟨by simp [parse_cart_response, hparse], ?_, ?_⟩
  all_goals
    simp only [parse_cart_response_E, hsel] at hparse
    cases hitems : cart_item_lists d with
    | error e =>
        rw [hitems] at hparse
        simp at hparse
    | ok raw =>
        rw [hitems] at hparse
        simp only [Except.ok.injEq] at hparse
        subst hparse
        rcases cart_totals_of_zero_total d htot with ⟨hA, hB⟩
        first
        | exact fun hpos => hA hpos
        | exact fun hz => hB hz

/-- Witness for C7's amended theorem: a response with subtotal 25 and
delivery fee 5 and no grand-total field parses to a cart with
`total_amount = 25 + 5 + 0 = 30`. -/
theorem cart_grand_total_requires_positive_subtotal_witness :
    parse_cart_response subtotal_cart_response =
      { items := [], total_items := 0, subtotal := 25, delivery_fee := 5,
        taxes := 0, total_amount := 30, min_order_value := none } ∧
    ({ items := [], total_items := 0, subtotal := 25, delivery_fee := 5,
       taxes := 0, total_amount := 30, min_order_value := none } : Cart).total_amount =
      ({ items := [], total_items := 0, subtotal := 25, delivery_fee := 5,
         taxes := 0, total_amount := 30, min_order_value := none } : Cart).subtotal +
      ({ items := [], total_items := 0, subtotal := 25, delivery_fee := 5,
         taxes := 0, total_amount := 30, min_order_value := none } : Cart).delivery_fee +
      ({ items := [], total_items := 0, subtotal := 25, delivery_fee := 5,
         taxes := 0, total_amount := 30, min_order_value := none } : Cart).taxes :=
  ⟨(cart_grand_total_requires_positive_subtotal subtotal_cart_response
      subtotal_cart_response
      { items := [], total_items := 0, subtotal := 25, delivery_fee := 5,
        taxes := 0, total_amount := 30, min_order_value := none }
      rfl rfl rfl).1,
   (cart_grand_total_requires_positive_subtotal subtotal_cart_response
      subtotal_cart_response
      { items := [], total_items := 0, subtotal := 25, delivery_fee := 5,
        taxes := 0, total_amount := 30, min_order_value := none }
      rfl rfl rfl).2.1 (by decide)⟩


/-- Helper: `Nat.toDigitsCore` with positive fuel strictly grows the
accumulator. -/
lemma toDigitsCore_length_lt (b : ℕ) :
    ∀ (fuel n : ℕ) (ds : List Char),
      ds.length < (Nat.toDigitsCore b (fuel + 1) n ds).length := by
  intro fuel
  induction fuel with
  | zero =>
      intro n ds
      rw [Nat.toDigitsCore]
      split
      · simp
      · rw [Nat.toDigitsCore]
        simp
  | succ m ih =>
      intro n ds
      rw [Nat.toDigitsCore]
      split
      · simp
      · exact Nat.lt_of_succ_lt (ih (n / b) ((n % b).digitChar :: ds))

/-- Helper: the decimal rendering of a natural number is never the
empty string. -/
lemma nat_repr_ne_empty (n : ℕ) : Nat.repr n ≠ "" := by
  intro hcon
  have h := toDigitsCore_length_lt 10 n n []
  rw [Nat.repr, Nat.toDigits] at hcon
  have h2 := congrArg String.length hcon
  rw [List.length_asString] at h2
  simp only [List.length_nil] at h
  simp only [String.length_empty] at h2
  omega

/-- Helper: the fallback product id is never the empty string, so the
`if not product_id` guard of `_parse_single_product` cannot fire for a
dict input. -/
lemma py_hash_str_ne_empty (v : JValue) : py_hash_str v ≠ "" :=
  nat_repr_ne_empty _

/-- Claim C8, counterexample: an address record with no `id` and no
`address_id` field parses to an Address whose identifier is the string
`"None"` — `str(None)` defeats the intended missing-id guard — and a
product record with no identity field still parses to a record (with a
hash-derived fallback id), so neither extractor returns "no record". -/
theorem parsers_fabricate_identifiers :
    (parse_single_address (.jobj [("city", .jstr "Pune")])).map Address.id = some "None" ∧
    (parse_single_product (.jobj [("name", .jstr "Milk")])).isSome = true :=
  ⟨rfl, rfl⟩

/-- Claim C8, amended: extraction never raises for missing optional
fields, but a record lacking every recognized identity field does not
yield "no record": `_parse_single_product` falls back to
`str(hash(str(item)))` — a non-empty string, so its missing-id guard is
unreachable for dict inputs — and `_parse_single_address` computes
`str(None) = "None"`, a truthy string that defeats its own
`if not address_id` guard, yielding an address whose id is `"None"`. -/
theorem missing_identity_fields_fabricate_ids :
    (∀ fields : List (String × JValue),
      (JValue.jobj fields).jlookup "id" = none →
      (JValue.jobj fields).jlookup "product_id" = none →
      (JValue.jobj fields).jlookup "sku" = none →
      (JValue.jobj fields).jlookup "pid" = none →
      (parse_single_product (.jobj fields)).map Product.id =
        some (py_hash_str (.jobj fields))) ∧
    (∀ fields : List (String × JValue),
      (JValue.jobj fields).jlookup "id" = none →
      (JValue.jobj fields).jlookup "address_id" = none →
      (parse_single_address (.jobj fields)).map Address.id = some "None") := by
  constructor
  · intro fields h1 h2 h3 h4
    have hne := py_hash_str_ne_empty (JValue.jobj fields)
    simp [parse_single_product, pyGet, h1, h2, h3, h4, pyOr, pyTruthy, pyStr, bne, hne]
  · intro fields h1 h2
    simp [parse_single_address, pyGet, h1, h2, pyOr, pyTruthy, pyStr]

/-- Witness for C8's amended theorem: concrete records with only
non-identity fields. -/
theorem missing_identity_fields_fabricate_ids_witness :
    (parse_single_product (.jobj [("brand", .jstr "Amul")])).map Product.id =
      some (py_hash_str (.jobj [("brand", .jstr "Amul")])) ∧
    (parse_single_address (.jobj [("state", .jstr "MH")])).map Address.id = some "None" :=
  ⟨missing_identity_fields_fabricate_ids.1 [("brand", .jstr "Amul")] rfl rfl rfl rfl,
   missing_identity_fields_fabricate_ids.2 [("state", .jstr "MH")] rfl rfl⟩

/-- Claim C9: when every cart-read candidate either raises or returns a
response the validity classifier rejects, `BlinkitCart.get_cart`
returns the well-formed default empty cart (no items, zero totals)
instead of raising; an actually empty cart response parses to the very
same value, so the two cases are indistinguishable at the return value. -/
theorem get_cart_empty_on_total_failure :
    (∀ rs : List (Except Fault JValue),
      (∀ r ∈ rs, classified_valid r = false) → get_cart_loop rs = empty_cart) ∧
    get_cart_loop [Except.ok (.jobj [("items", .jarr [])])] = empty_cart := by
  constructor
  · intro rs h
    induction rs with
    | nil => rfl
    | cons r rest ih =>
        have hr : classified_valid r = false := h r (by simp)
        have hrest := ih (fun x hx => h x (by simp [hx]))
        cases r with
        | error f => simp [get_cart_loop, hrest]
        | ok v =>
            cases hcl : is_valid_cart_response v with
            | error m => simp [get_cart_loop, hcl, hrest]
            | ok b =>
                cases b with
                | true => simp [classified_valid, hcl] at hr
                | false => simp [get_cart_loop, hcl, hrest]
  · rfl

/-- Witness for C9: one candidate raising an authentication fault and
one returning a non-dict body still produce the default empty cart. -/
theorem get_cart_empty_on_total_failure_witness :
    get_cart_loop [Except.error Fault.authFault, Except.ok (.jnum 7)] = empty_cart :=
  get_cart_empty_on_total_failure.1 _ (by intro r hr; fin_cases hr <;> rfl)

/-- Claim C10: `BlinkitCart.update_cart_item` rejects every negative
quantity with a `ValueError` before any transport call (empty call
trace), and for quantity exactly 0 it returns precisely what
`remove_from_cart` returns — outcome and transport-call trace alike —
so a zero-quantity update and a removal are the same operation. -/
theorem update_rejects_negative_and_zero_removes :
    (∀ (pid : String) (q : ℤ) (post : String → Except Fault JValue),
      q < 0 → update_cart_item pid q post = (.invalidQuantity, [])) ∧
    (∀ (pid : String) (post : String → Except Fault JValue),
      update_cart_item pid 0 post = remove_from_cart pid post) := by
  constructor
  · intro pid q post hq
    simp [update_cart_item, hq]
  · intro pid post
    simp [update_cart_item]

/-- Witness for C10: quantity −2 is rejected with no transport call;
quantity 0 equals the removal call on the same environment. -/
theorem update_rejects_negative_and_zero_removes_witness :
    update_cart_item "p1" (-2) (fun _ => Except.error (Fault.otherFault "net")) =
      (.invalidQuantity, []) ∧
    update_cart_item "p1" 0 (fun _ => Except.error (Fault.otherFault "net")) =
      remove_from_cart "p1" (fun _ => Except.error (Fault.otherFault "net")) :=
  ⟨update_rejects_negative_and_zero_removes.1 "p1" (-2) _ (by norm_num),
   update_rejects_negative_and_zero_removes.2 "p1" _⟩

end Blinkit
